import Mathlib

/-!
Verification of the measurement sequencing and analytics engine of the
cable-monitor firmware (src/Core/Src/analytics.c).

Modelling conventions:
* C `float` values are idealised as exact rationals (`ℚ`); the one operation
  that leaves the rationals, `sqrtf`, is exposed through `Real.sqrt` on the
  stored pre-square-root value.
* C machine integers (`uint16_t`, `uint32_t`, loop counters) are `ℕ`; none of
  the verified code paths can overflow them.
* The four 10-element measurement buffers are total maps `ℕ → ℚ`; the handler
  only ever indexes them with the cycle counter, which stays below the
  configured accuracy.
* IEEE float division by zero produces a non-finite value; `CALC_ElCurrent`
  therefore returns `Option ℚ`, with `none` marking the division-by-zero case.
* The C locals `sumLeft`, `sumRight`, `sumHall` and the `deviation` array in
  `ANA_Handler` are read before ever being initialised (undefined behaviour);
  their indeterminate initial values are modelled explicitly by the `Junk`
  record that is passed to each poll.
-/

/-- Volt per digit (`CALC_ADCVOLTRESOLUTION` in analytics.c). -/
def CALC_ADCVOLTRESOLUTION : ℚ := 8056640625 / 10000000000000

/-- Amplification of circuit (`CALC_AMPOPAMP`). -/
def CALC_AMPOPAMP : ℚ := 95

/-- Amplification of hall sensor (`CALC_AMPHALLSENS`). -/
def CALC_AMPHALLSENS : ℚ := 90

/-- Pi and permeability constant (`CALC_PIDANDPERM`). -/
def CALC_PIDANDPERM : ℚ := 499855633 / 100

/-- Look-up table size (`CALC_LUTSIZE`). -/
def CALC_LUTSIZE : ℕ := 11

/-- Distance look-up table in cm (`CALC_distanceLUT`). -/
def CALC_distanceLUT : ℕ → ℚ :=
  fun i => ([0, 10, 20, 30, 40, 50, 70, 100, 150, 200, 300] : List ℚ).getD i 0

/-- Strength table, right channel, mode L (`CALC_wpcRightL`). -/
def CALC_wpcRightL : ℕ → ℚ :=
  fun i => ([810, 690, 620, 565, 530, 510, 490, 450, 395, 380, 330] : List ℚ).getD i 0

/-- Strength table, left channel, mode L (`CALC_wpcLeftL`). -/
def CALC_wpcLeftL : ℕ → ℚ :=
  fun i => ([795, 740, 683, 570, 540, 510, 490, 460, 430, 420, 410] : List ℚ).getD i 0

/-- Strength table, right channel, mode LN (`CALC_wpcRightLN`). -/
def CALC_wpcRightLN : ℕ → ℚ :=
  fun i => ([570, 510, 430, 375, 340, 330, 290, 265, 245, 195, 165] : List ℚ).getD i 0

/-- Strength table, left channel, mode LN (`CALC_wpcLeftLN`). -/
def CALC_wpcLeftLN : ℕ → ℚ :=
  fun i => ([365, 350, 350, 325, 320, 305, 275, 265, 262, 215, 210] : List ℚ).getD i 0

/-- Strength table, right channel, mode LNPE (`CALC_wpcRightLNPE`). -/
def CALC_wpcRightLNPE : ℕ → ℚ :=
  fun i => ([450, 363, 306, 283, 273, 267, 263, 237, 215, 198, 170] : List ℚ).getD i 0

/-- Strength table, left channel, mode LNPE (`CALC_wpcLeftLNPE`). -/
def CALC_wpcLeftLNPE : ℕ → ℚ :=
  fun i => ([315, 292, 280, 263, 260, 255, 242, 235, 220, 211, 204] : List ℚ).getD i 0

/-- Array of left strength tables indexed by mode (`CALC_wpcLeft`).  The C code
indexes this 3-element pointer array with the mode option; any mode other than
0, 1, 2 would be an out-of-bounds read, and no theorem below uses one. -/
def CALC_wpcLeft : ℕ → (ℕ → ℚ) :=
  fun mode => ([CALC_wpcLeftL, CALC_wpcLeftLN, CALC_wpcLeftLNPE]).getD mode CALC_wpcLeftL

/-- Array of right strength tables indexed by mode (`CALC_wpcRight`). -/
def CALC_wpcRight : ℕ → (ℕ → ℚ) :=
  fun mode => ([CALC_wpcRightL, CALC_wpcRightLN, CALC_wpcRightLNPE]).getD mode CALC_wpcRightL

/-- Approximate angle from the three length inputs (`CALC_Angle`).  The body
divides `left` and `right` by `middle`, then reassigns `middle = 1`, so the
thresholds compare against `1 - 0.2`. -/
def CALC_Angle (left right middle : ℚ) : ℚ :=
  let l := left / middle
  let r := right / middle
  if l < 1 - 2/10 then -30
  else if r < 1 - 2/10 then 30
  else 0

/-- Electrical current from hall amplitude and distance (`CALC_ElCurrent`).
The C code computes `I = CALC_PIDANDPERM * (distance / B)` unconditionally;
when `B == 0` the IEEE float division yields a non-finite value, which this
rational model represents as `none`. -/
def CALC_ElCurrent (amplitude distance : ℚ) : Option ℚ :=
  let B := amplitude * CALC_ADCVOLTRESOLUTION / CALC_AMPOPAMP / CALC_AMPHALLSENS
  if B = 0 then none else some (CALC_PIDANDPERM * (distance / B))

/-- One pass of the `for` loop of `CALC_Distance`, iterated by fuel `k`
starting at index `i`.  The state is the triple of the C locals `(t, s, d)`
(ints, initialised to `(0, -10, -10)`).  At index `i` the loop sets
`t = s = i` on an exact strength match and `t = d = i` when the measurement is
strictly bracketed between `lutStrenght[i]` and `lutStrenght[i+1]`. -/
def CALC_scan (lutStrenght : ℕ → ℚ) (m : ℚ) : ℕ → ℕ → ℤ × ℤ × ℤ → ℤ × ℤ × ℤ
  | 0, _, st => st
  | k+1, i, st =>
      let st1 := if m = lutStrenght i then ((i : ℤ), (i : ℤ), st.2.2) else st
      let st2 := if m < lutStrenght i ∧ lutStrenght (i+1) < m then
          ((i : ℤ), st1.2.1, (i : ℤ)) else st1
      CALC_scan lutStrenght m k (i+1) st2

/-- Convert amplitude strength to distance (`CALC_Distance`).  The measurement
is first clamped to the table's boundary strengths, then the table is scanned
for an exact match (`t == s`) or a bracketing pair (`t == d`); a bracketing
pair is resolved by linear interpolation.  If neither test holds, the initial
`distance = -1` is returned.  (The source spells the parameter `lutStrenght`.) -/
def CALC_Distance (lutDistance lutStrenght : ℕ → ℚ) (measurement : ℚ) : ℚ :=
  let m := if lutStrenght (CALC_LUTSIZE - 1) > measurement then lutStrenght (CALC_LUTSIZE - 1)
           else if measurement > lutStrenght 0 then lutStrenght 0
           else measurement
  let st := CALC_scan lutStrenght m CALC_LUTSIZE 0 (0, -10, -10)
  let t := st.1
  let s := st.2.1
  let d := st.2.2
  let r2 := if t = d then
      ((lutDistance (t.toNat + 1) - lutDistance t.toNat)
          / (lutStrenght (t.toNat + 1) - lutStrenght t.toNat))
        * (m - lutStrenght t.toNat) + lutDistance t.toNat
    else (-1 : ℚ)
  if t = s then lutDistance t.toNat else r2

/-- Distance from measurement and mode setting (`CALC_DistanceMode`): selects
the left or right strength table for the given calibration mode and calls
`CALC_Distance` with the shared distance table. -/
def CALC_DistanceMode (measurement : ℚ) (mode : ℕ) (right : Bool) : ℚ :=
  let lut := if right then CALC_wpcRight mode else CALC_wpcLeft mode
  CALC_Distance CALC_distanceLUT lut measurement

/-- Access-instrumented version of the `CALC_Distance` scan loop: every C array
read is an `Option`-returning list lookup, and the short-circuit of `&&` is
preserved (the second operand `lutStrenght[i+1]` is only read when
`measurement < lutStrenght[i]` holds).  The result is `none` exactly when the
C loop would read past the end of `lutStrenght`. -/
def scanChecked (lutStrenght : List ℚ) (m : ℚ) : ℕ → ℕ → ℤ × ℤ × ℤ → Option (ℤ × ℤ × ℤ)
  | 0, _, st => some st
  | k+1, i, st =>
      match lutStrenght[i]? with
      | none => none
      | some si =>
          let st1 := if m = si then ((i : ℤ), (i : ℤ), st.2.2) else st
          if m < si then
            match lutStrenght[i+1]? with
            | none => none
            | some si1 =>
                if si1 < m then scanChecked lutStrenght m k (i+1) ((i : ℤ), st1.2.1, (i : ℤ))
                else scanChecked lutStrenght m k (i+1) st1
          else scanChecked lutStrenght m k (i+1) st1

/-- Access-instrumented `CALC_Distance` over list-backed tables: identical
arithmetic to `CALC_Distance`, but every array access goes through an
`Option`-returning lookup, so the function returns `none` iff evaluating the C
body on tables of the given lengths performs an out-of-bounds read. -/
def CALC_DistanceChecked (lutDistance lutStrenght : List ℚ) (measurement : ℚ) : Option ℚ :=
  match lutStrenght[CALC_LUTSIZE - 1]?, lutStrenght[0]? with
  | some sLast, some s0 =>
      let m := if sLast > measurement then sLast
               else if measurement > s0 then s0
               else measurement
      match scanChecked lutStrenght m CALC_LUTSIZE 0 (0, -10, -10) with
      | none => none
      | some (t, s, d) =>
          let r2 : Option ℚ :=
            if t = d then
              match lutDistance[t.toNat + 1]?, lutDistance[t.toNat]?,
                  lutStrenght[t.toNat + 1]?, lutStrenght[t.toNat]? with
              | some dt1, some dt, some st1, some stt =>
                  some (((dt1 - dt) / (st1 - stt)) * (m - stt) + dt)
              | _, _, _, _ => none
            else some (-1)
          match r2 with
          | none => none
          | some r2v =>
              if t = s then
                match lutDistance[t.toNat]? with
                | some dt => some dt
                | none => none
              else some r2v
  | _, _ => none

/-- Configuration options (`ANA_inOptn[0..3]`): calibration mode, data type
(0 = analysed, otherwise raw passthrough), measuring type (1 = continuous,
otherwise single shot), and accuracy (number of cycles). -/
structure AnaOptn where
  mode : ℕ
  dataType : ℕ
  measType : ℕ
  accuracy : ℕ
deriving DecidableEq

/-- Per-poll inputs posted by the main loop (`ANA_inBtn`, `ANA_inMeasReady`,
`ANA_inAmpLeft`, `ANA_inAmpRight`); the handler clears the two flags at the
end of every call, so they are consumed afresh each poll. -/
structure AnaIn where
  inBtn : Bool
  inMeasReady : Bool
  inAmpLeft : ℕ
  inAmpRight : ℕ
deriving DecidableEq

/-- Indeterminate initial values of the uninitialised C locals of the analysis
block of `ANA_Handler`: `sumLeft`, `sumRight`, `sumHall` (all declared without
an initialiser and then accumulated into) and the VLA `deviation`. -/
structure Junk where
  gSumLeft : ℚ
  gSumRight : ℚ
  gSumHall : ℚ
  gDev : ℕ → ℚ

/-- The four-slot output record `ANA_outResults`.  In analysed mode the slots
hold angle, mean distance, standard deviation and current; in raw passthrough
mode they hold the four per-channel means.  Two slots need a richer carrier
than `ℚ`: `res2` stores the value the code passes to `sqrtf` (the reported
standard deviation is `Real.sqrt res2`; in raw mode the code stores the plain
WPC-right mean here and no square root is involved), and `res3` is an
`Option ℚ` because the current computation can divide by zero (raw mode always
stores `some` of the WPC-left mean). -/
structure AnaResults where
  res0 : ℚ
  res1 : ℚ
  res2 : ℚ
  res3 : Option ℚ
deriving DecidableEq

/-- The handler's mutable globals: output events, status flags, cycle counter
and the four measurement buffers. -/
structure AnaState where
  outStartHALL : Bool
  outStartWPC : Bool
  outResults : AnaResults
  outDataReady : Bool
  measBusy : Bool
  wpcBusy : Bool
  hallBusy : Bool
  cycle : ℕ
  wpcLeft : ℕ → ℚ
  wpcRight : ℕ → ℚ
  hallLeft : ℕ → ℚ
  hallRight : ℕ → ℚ

/-- Initial state: C globals are zero-initialised, so every flag is false, the
cycle counter is 0 and all buffers hold 0. -/
def ANA_init : AnaState where
  outStartHALL := false
  outStartWPC := false
  outResults := ⟨0, 0, 0, some 0⟩
  outDataReady := false
  measBusy := false
  wpcBusy := false
  hallBusy := false
  cycle := 0
  wpcLeft := fun _ => 0
  wpcRight := fun _ => 0
  hallLeft := fun _ => 0
  hallRight := fun _ => 0

/-- The "collect data" section of `ANA_Handler` (lines 218-224): when a
measurement-ready event arrives during a WPC (resp. Hall) phase, the raw
amplitudes are recorded into the corresponding buffers at the current cycle
index. -/
def ANA_collect (inp : AnaIn) (s : AnaState) : AnaState :=
  if s.wpcBusy && inp.inMeasReady then
    { s with wpcLeft := Function.update s.wpcLeft s.cycle (inp.inAmpLeft : ℚ),
             wpcRight := Function.update s.wpcRight s.cycle (inp.inAmpRight : ℚ) }
  else if s.hallBusy && inp.inMeasReady then
    { s with hallLeft := Function.update s.hallLeft s.cycle (inp.inAmpLeft : ℚ),
             hallRight := Function.update s.hallRight s.cycle (inp.inAmpRight : ℚ) }
  else s

/-- The "while meas busy, start measurements" section of `ANA_Handler`
(lines 227-241), evaluated with the measurement-busy value `mb` produced by
the button-start section.  Returns the updated
`(outStartWPC, outStartHALL, wpcBusy, hallBusy, cycle)`. -/
def ANA_seq (optn : AnaOptn) (mb ready : Bool) (s : AnaState) :
    Bool × Bool × Bool × Bool × ℕ :=
  if mb then
    if decide (s.cycle < optn.accuracy) && !s.wpcBusy && !s.hallBusy then
      (true, s.outStartHALL, true, s.hallBusy, s.cycle)
    else if s.wpcBusy && ready then
      (s.outStartWPC, true, false, true, s.cycle)
    else if s.hallBusy && ready then
      (s.outStartWPC, s.outStartHALL, s.wpcBusy, false, s.cycle + 1)
    else
      (s.outStartWPC, s.outStartHALL, s.wpcBusy, s.hallBusy, s.cycle)
  else
    (s.outStartWPC, s.outStartHALL, s.wpcBusy, s.hallBusy, s.cycle)

/-- In-place conversion of the WPC-left buffer to distances (analysis block,
lines 254-257): entries below the accuracy are replaced by their converted
distance, the rest of the buffer is untouched. -/
def ANA_wpcConvL (optn : AnaOptn) (wl : ℕ → ℚ) : ℕ → ℚ :=
  fun i => if i < optn.accuracy then CALC_DistanceMode (wl i) optn.mode false else wl i

/-- In-place conversion of the WPC-right buffer to distances. -/
def ANA_wpcConvR (optn : AnaOptn) (wr : ℕ → ℚ) : ℕ → ℚ :=
  fun i => if i < optn.accuracy then CALC_DistanceMode (wr i) optn.mode true else wr i

/-- The accumulated `sumLeft` of the analysis block (lines 259-263): the C
local is never initialised, so the sum starts from its indeterminate initial
value `junk.gSumLeft`. -/
def ANA_sumLeft (optn : AnaOptn) (junk : Junk) (wl : ℕ → ℚ) : ℚ :=
  junk.gSumLeft + ((List.range optn.accuracy).map (ANA_wpcConvL optn wl)).sum

/-- The accumulated `sumRight` (uninitialised local, see `ANA_sumLeft`). -/
def ANA_sumRight (optn : AnaOptn) (junk : Junk) (wr : ℕ → ℚ) : ℚ :=
  junk.gSumRight + ((List.range optn.accuracy).map (ANA_wpcConvR optn wr)).sum

/-- `meanLeft` of the analysis block (line 266). -/
def ANA_meanLeft (optn : AnaOptn) (junk : Junk) (wl : ℕ → ℚ) : ℚ :=
  ANA_sumLeft optn junk wl / optn.accuracy

/-- `meanRight` of the analysis block (line 267). -/
def ANA_meanRight (optn : AnaOptn) (junk : Junk) (wr : ℕ → ℚ) : ℚ :=
  ANA_sumRight optn junk wr / optn.accuracy

/-- Overall `mean` of the analysis block (line 268). -/
def ANA_mean (optn : AnaOptn) (junk : Junk) (wl wr : ℕ → ℚ) : ℚ :=
  (ANA_sumLeft optn junk wl + ANA_sumRight optn junk wr) / (2 * optn.accuracy)

/-- The deviation-array loop (lines 273-281), iterated by fuel over the cycle
index `i`.  Exactly as in the C code, iteration `i` writes the squared left
deviation at index `i` and the squared right deviation at index `2*i` (so the
two writes collide at even indices); indices never written keep their
indeterminate initial value. -/
def devLoop (L R : ℕ → ℚ) (m : ℚ) : ℕ → ℕ → (ℕ → ℚ) → (ℕ → ℚ)
  | 0, _, arr => arr
  | k+1, i, arr =>
      let arr1 := Function.update arr i ((L i - m) * (L i - m))
      let arr2 := Function.update arr1 (2 * i) ((R i - m) * (R i - m))
      devLoop L R m k (i+1) arr2

/-- The deviation array after the loop, starting from the VLA's indeterminate
contents `junk.gDev`. -/
def ANA_dev (optn : AnaOptn) (junk : Junk) (wl wr : ℕ → ℚ) : ℕ → ℚ :=
  devLoop (ANA_wpcConvL optn wl) (ANA_wpcConvR optn wr)
    (ANA_mean optn junk wl wr) optn.accuracy 0 junk.gDev

/-- The variance value the code feeds to `sqrtf` (lines 283-289): the
accumulation loop adds `deviation[1]` — the literal index 1, not `i` — on
every one of its `2*accuracy` iterations, then divides by `2*accuracy`.
When `accuracy <= 1` the whole block is skipped and `stdDeviation` stays 0. -/
def ANA_var (optn : AnaOptn) (junk : Junk) (wl wr : ℕ → ℚ) : ℚ :=
  if 1 < optn.accuracy then
    ((List.range (2 * optn.accuracy)).map (fun _ => ANA_dev optn junk wl wr 1)).sum
      / (2 * optn.accuracy)
  else 0

/-- The hall-sensor mean (lines 298-303): the uninitialised `sumHall`
accumulates both hall buffers over all cycles and is then divided by
`2*accuracy`. -/
def ANA_meanHall (optn : AnaOptn) (junk : Junk) (hl hr : ℕ → ℚ) : ℚ :=
  (junk.gSumHall + ((List.range optn.accuracy).map (fun i => hl i + hr i)).sum)
    / (2 * optn.accuracy)

/-- The current output (lines 296-306): computed only when `0 < mean < 10`,
otherwise the initialiser `current = 0` survives. -/
def ANA_current (optn : AnaOptn) (junk : Junk) (wl wr hl hr : ℕ → ℚ) : Option ℚ :=
  if ANA_mean optn junk wl wr < 10 ∧ 0 < ANA_mean optn junk wl wr then
    CALC_ElCurrent (ANA_meanHall optn junk hl hr) (ANA_mean optn junk wl wr / 1000)
  else some 0

/-- The angle output (line 293).  Note the argument order of the call in the
source: `CALC_Angle(meanRight, meanLeft, mean)` passes the right mean into the
parameter named `left` and vice versa. -/
def ANA_angle (optn : AnaOptn) (junk : Junk) (wl wr : ℕ → ℚ) : ℚ :=
  CALC_Angle (ANA_meanRight optn junk wr) (ANA_meanLeft optn junk wl)
    (ANA_mean optn junk wl wr)

/-- Mean of a raw buffer over all cycles (raw passthrough branch,
lines 317-334; these four accumulators are initialised to 0 in the C code). -/
def ANA_rawMean (optn : AnaOptn) (f : ℕ → ℚ) : ℚ :=
  ((List.range optn.accuracy).map f).sum / optn.accuracy

/-- The analysis block of `ANA_Handler` (lines 244-344), taking the four
buffers as recorded and returning the output record together with the WPC
buffers as left behind (the analysed branch overwrites them in place with
converted distances; the raw branch leaves them untouched). -/
def ANA_analyse (optn : AnaOptn) (junk : Junk) (wl wr hl hr : ℕ → ℚ) :
    AnaResults × (ℕ → ℚ) × (ℕ → ℚ) :=
  if optn.dataType == 0 then
    ({ res0 := ANA_angle optn junk wl wr
     , res1 := ANA_mean optn junk wl wr
     , res2 := ANA_var optn junk wl wr
     , res3 := ANA_current optn junk wl wr hl hr },
     ANA_wpcConvL optn wl, ANA_wpcConvR optn wr)
  else
    ({ res0 := ANA_rawMean optn hr
     , res1 := ANA_rawMean optn hl
     , res2 := ANA_rawMean optn wr
     , res3 := some (ANA_rawMean optn wl) },
     wl, wr)

/-- The reported `ANA_outResults[2]` in analysed mode: the code stores
`sqrtf(var)` when `accuracy > 1` and 0 otherwise; `res2` stores the value
before the square root (0 in the skipped case, and `Real.sqrt 0 = 0`), so the
reported float is `Real.sqrt res2`.  `Real.sqrt` is noncomputable, which is
why the square root is taken here rather than inside the executable state. -/
noncomputable def ANA_reportedStdDev (s : AnaState) : ℝ :=
  Real.sqrt ((s.outResults.res2 : ℚ) : ℝ)

/-- One poll of `ANA_Handler` (lines 210-359), sequenced exactly as the C
body: button start, data collection, phase advance, completion analysis,
run termination, cycle reset.  The input flags are consumed by the poll (the
code clears them before returning). -/
def ANA_Handler (optn : AnaOptn) (junk : Junk) (inp : AnaIn) (s : AnaState) : AnaState :=
  let measBusy1 : Bool := if inp.inBtn && !s.measBusy then true else s.measBusy
  let inBtn1 : Bool := if inp.inBtn && !s.measBusy then false else inp.inBtn
  let s1 := ANA_collect inp s
  let q := ANA_seq optn measBusy1 inp.inMeasReady s
  let wpcBusy2 := q.2.2.1
  let hallBusy2 := q.2.2.2.1
  let cycle2 := q.2.2.2.2
  let fires : Bool := (cycle2 == optn.accuracy) && !wpcBusy2 && !hallBusy2
  let ar := ANA_analyse optn junk s1.wpcLeft s1.wpcRight s1.hallLeft s1.hallRight
  { outStartWPC := q.1
  , outStartHALL := q.2.1
  , outResults := if fires then ar.1 else s.outResults
  , outDataReady := if fires then true else s.outDataReady
  , measBusy := if ((cycle2 == optn.accuracy) && !(optn.measType == 1))
        || (inBtn1 && (optn.measType == 1)) then false else measBusy1
  , wpcBusy := wpcBusy2
  , hallBusy := hallBusy2
  , cycle := if cycle2 == optn.accuracy then 0 else cycle2
  , wpcLeft := if fires then ar.2.1 else s1.wpcLeft
  , wpcRight := if fires then ar.2.2 else s1.wpcRight
  , hallLeft := s1.hallLeft
  , hallRight := s1.hallRight }

/-- States reachable from the zero-initialised globals by polling
`ANA_Handler` with a fixed configuration, arbitrary per-poll inputs and
arbitrary contents of the uninitialised locals. -/
inductive ANA_Reachable (optn : AnaOptn) : AnaState → Prop
  | init : ANA_Reachable optn ANA_init
  | step (s : AnaState) (junk : Junk) (inp : AnaIn) :
      ANA_Reachable optn s → ANA_Reachable optn (ANA_Handler optn junk inp s)

/-- Configuration used by the concrete runs: mode L, analysed output, single
shot, accuracy 1. -/
def optnA : AnaOptn := ⟨0, 0, 0, 1⟩

/-- All uninitialised locals happen to start at zero. -/
def junk0 : Junk := ⟨0, 0, 0, fun _ => 0⟩

/-- Uninitialised `sumLeft` happens to start at 1, the rest at zero. -/
def junkB : Junk := ⟨1, 0, 0, fun _ => 0⟩

/-- Poll input: button pressed, no measurement ready. -/
def inpStart : AnaIn := ⟨true, false, 0, 0⟩

/-- Accuracy-1 run, poll 1: button press starts the measurement. -/
def sA1 : AnaState := ANA_Handler optnA junk0 inpStart ANA_init

/-- Accuracy-1 run, poll 2: WPC readings 795 (left) and 690 (right) arrive;
the converted distances are 0 cm and 10 cm. -/
def sA2 : AnaState := ANA_Handler optnA junk0 ⟨false, true, 795, 690⟩ sA1

/-- Accuracy-1 run, poll 3: hall readings 0/0 arrive and the run completes. -/
def sA3 : AnaState := ANA_Handler optnA junk0 ⟨false, true, 0, 0⟩ sA2

/-- Same completing poll as `sA3` but with `sumLeft` starting at 1. -/
def sB3 : AnaState := ANA_Handler optnA junkB ⟨false, true, 0, 0⟩ sA2

/-- Configuration for the accuracy-2 run: mode L, analysed, single shot. -/
def optnD : AnaOptn := ⟨0, 0, 0, 2⟩

/-- Accuracy-2 run, poll 1: button press. -/
def sD1 : AnaState := ANA_Handler optnD junk0 inpStart ANA_init

/-- Accuracy-2 run, poll 2: cycle-0 WPC readings 795/810 (distances 0/0). -/
def sD2 : AnaState := ANA_Handler optnD junk0 ⟨false, true, 795, 810⟩ sD1

/-- Accuracy-2 run, poll 3: cycle-0 hall readings. -/
def sD3 : AnaState := ANA_Handler optnD junk0 ⟨false, true, 0, 0⟩ sD2

/-- Accuracy-2 run, poll 4: the sequencer starts the cycle-1 WPC phase. -/
def sD4 : AnaState := ANA_Handler optnD junk0 ⟨false, false, 0, 0⟩ sD3

/-- Accuracy-2 run, poll 5: cycle-1 WPC readings 740/810 (distances 10/0). -/
def sD5 : AnaState := ANA_Handler optnD junk0 ⟨false, true, 740, 810⟩ sD4

/-- Accuracy-2 run, poll 6: cycle-1 hall readings arrive, run completes. -/
def sD6 : AnaState := ANA_Handler optnD junk0 ⟨false, true, 0, 0⟩ sD5

/-- Configuration for the cancellation run: continuous mode, accuracy 2. -/
def optnE : AnaOptn := ⟨0, 0, 1, 2⟩

/-- Continuous run, poll 1: button press starts the measurement. -/
def sE1 : AnaState := ANA_Handler optnE junk0 inpStart ANA_init

/-- Continuous run, poll 2: cycle-0 WPC readings. -/
def sE2 : AnaState := ANA_Handler optnE junk0 ⟨false, true, 795, 810⟩ sE1

/-- Continuous run, poll 3: cycle-0 hall readings; cycle index becomes 1. -/
def sE3 : AnaState := ANA_Handler optnE junk0 ⟨false, true, 0, 0⟩ sE2

/-- Continuous run, poll 4: the button is pressed mid-run to cancel. -/
def sE4 : AnaState := ANA_Handler optnE junk0 inpStart sE3

/-- First poll of a run from the initial state: button pressed. -/
def ANA_run1 (optn : AnaOptn) (j1 : Junk) : AnaState :=
  ANA_Handler optn j1 ⟨true, false, 0, 0⟩ ANA_init

/-- Second poll: measurement ready with WPC amplitudes `aL`, `aR`. -/
def ANA_run2 (optn : AnaOptn) (j1 j2 : Junk) (aL aR : ℕ) : AnaState :=
  ANA_Handler optn j2 ⟨false, true, aL, aR⟩ (ANA_run1 optn j1)

/-- Third poll: measurement ready with Hall amplitudes `bL`, `bR`. -/
def ANA_run3 (optn : AnaOptn) (j1 j2 j3 : Junk) (aL aR bL bR : ℕ) : AnaState :=
  ANA_Handler optn j3 ⟨false, true, bL, bR⟩ (ANA_run2 optn j1 j2 aL aR)

/-- The phase-advance section changes the cycle counter by at most one. -/
theorem ANA_seq_cycle (optn : AnaOptn) (mb ready : Bool) (s : AnaState) :
    (ANA_seq optn mb ready s).2.2.2.2 = s.cycle ∨
      (ANA_seq optn mb ready s).2.2.2.2 = s.cycle + 1 := by
  unfold ANA_seq
  split_ifs <;> simp

/-- Arithmetic core of the cycle bound: if the counter was below the accuracy
and moved by at most one, the end-of-poll reset keeps it below the accuracy. -/
theorem cycleStep_lt (acc c0 c2 : ℕ) (h1 : 1 ≤ acc) (hc : c0 < acc)
    (h : c2 = c0 ∨ c2 = c0 + 1) : (if c2 == acc then 0 else c2) < acc := by
  simp only [beq_iff_eq]
  split_ifs <;> omega

/-- One poll preserves `cycle < accuracy` (for any positive accuracy). -/
theorem ANA_Handler_cycle_lt (optn : AnaOptn) (junk : Junk) (inp : AnaIn) (s : AnaState)
    (h1 : 1 ≤ optn.accuracy) (hc : s.cycle < optn.accuracy) :
    (ANA_Handler optn junk inp s).cycle < optn.accuracy := by
  simp only [ANA_Handler]
  exact cycleStep_lt optn.accuracy s.cycle _ h1 hc (ANA_seq_cycle optn _ inp.inMeasReady s)

/-- C1: for every state reachable from the zero-initialised idle state by any
sequence of `ANA_Handler` polls under a fixed valid configuration (positive
accuracy at most the buffer capacity 10) with arbitrary inputs, the state
observed between polls has `cycle < accuracy`, or `cycle = 0` with the
sequencer idle.  (The proof establishes the stronger left disjunct.) -/
theorem C1_sequencer_invariant (optn : AnaOptn) (h1 : 1 ≤ optn.accuracy)
    (h2 : optn.accuracy ≤ 10) (s : AnaState) (hs : ANA_Reachable optn s) :
    s.cycle < optn.accuracy ∨
      (s.cycle = 0 ∧ s.measBusy = false ∧ s.wpcBusy = false ∧ s.hallBusy = false) := by
  refine Or.inl ?_
  induction hs with
  | init => exact h1
  | step s' junk inp _ ih => exact ANA_Handler_cycle_lt optn junk inp s' h1 ih

/-- Witness for C1 at the concrete configuration `optnA` and the initial
state. -/
theorem C1_sequencer_invariant_witness :
    ANA_init.cycle < optnA.accuracy ∨
      (ANA_init.cycle = 0 ∧ ANA_init.measBusy = false ∧ ANA_init.wpcBusy = false ∧
        ANA_init.hallBusy = false) :=
  C1_sequencer_invariant optnA (by decide) (by decide) ANA_init ANA_Reachable.init

/-- Splitting the scan loop: running `k1 + k2` iterations from index `i` is
running `k1` iterations and then `k2` more from index `i + k1`. -/
theorem CALC_scan_add (lutS : ℕ → ℚ) (m : ℚ) (k1 k2 i : ℕ) (st : ℤ × ℤ × ℤ) :
    CALC_scan lutS m (k1 + k2) i st =
      CALC_scan lutS m k2 (i + k1) (CALC_scan lutS m k1 i st) := by
  induction k1 generalizing i st with
  | zero => simp [CALC_scan]
  | succ k ih =>
      have hidx : i + 1 + k = i + (k + 1) := by omega
      have hfuel : k + 1 + k2 = (k + k2) + 1 := by omega
      rw [hfuel]
      simp only [CALC_scan]
      rw [ih, hidx]

/-- Iterations on which neither the exact-match test nor the bracketing test
fires leave the `(t, s, d)` state untouched. -/
theorem CALC_scan_id (lutS : ℕ → ℚ) (m : ℚ) (k : ℕ) :
    ∀ i st, (∀ j, i ≤ j → j < i + k →
        m ≠ lutS j ∧ ¬(m < lutS j ∧ lutS (j+1) < m)) →
      CALC_scan lutS m k i st = st := by
  induction k with
  | zero => intro i st _; simp [CALC_scan]
  | succ k ih =>
      intro i st h
      have hj := h i (le_refl i) (by omega)
      simp only [CALC_scan]
      rw [if_neg hj.1, if_neg hj.2]
      exact ih (i+1) st (fun j hj1 hj2 => h j (by omega) (by omega))

/-- A table whose adjacent strengths strictly decrease is strictly decreasing
across any pair of indices up to 10. -/
theorem lut_strict_anti (lutS : ℕ → ℚ)
    (hdec : ∀ i, i < 10 → lutS (i+1) < lutS i) :
    ∀ i j : ℕ, i < j → j ≤ 10 → lutS j < lutS i := by
  intro i j
  induction j with
  | zero => omega
  | succ j ih =>
      intro hij hj
      rcases Nat.lt_succ_iff_lt_or_eq.mp hij with h | h
      · exact lt_trans (hdec j (by omega)) (ih h (by omega))
      · subst h
        exact hdec i (by omega)

/-- When the (clamped) measurement equals the last strength entry of a
strictly decreasing table, the scan ends with `t = s = 10`, `d = -10`. -/
theorem CALC_scan_match_last (lutS : ℕ → ℚ) (m : ℚ)
    (hm : m = lutS 10) (hlt : ∀ i, i < 10 → m < lutS i)
    (hgt : ∀ i, i ≤ 10 → ¬ lutS i < m) :
    CALC_scan lutS m 11 0 (0, -10, -10) = (10, 10, -10) := by
  have hsplit : (11 : ℕ) = 10 + 1 := rfl
  rw [hsplit, CALC_scan_add lutS m 10 1 0 (0, -10, -10)]
  rw [CALC_scan_id lutS m 10 0 (0, -10, -10) ?hid]
  case hid =>
    intro j hj0 hj10
    refine ⟨ne_of_lt (hlt j (by omega)), ?_⟩
    rintro ⟨-, habs⟩
    exact hgt (j+1) (by omega) habs
  show CALC_scan lutS m 1 (0 + 10) (0, -10, -10) = (10, 10, -10)
  simp only [Nat.zero_add, CALC_scan]
  rw [if_pos hm, if_neg ?hbr]
  case hbr =>
    rintro ⟨habs, -⟩
    rw [hm] at habs
    exact lt_irrefl _ habs
  decide

/-- When the (clamped) measurement equals the first strength entry of a
strictly decreasing table, the scan ends with `t = s = 0`, `d = -10`. -/
theorem CALC_scan_match_first (lutS : ℕ → ℚ) (m : ℚ)
    (hm : m = lutS 0) (hlt : ∀ i, 1 ≤ i → i ≤ 10 → lutS i < m) :
    CALC_scan lutS m 11 0 (0, -10, -10) = (0, 0, -10) := by
  have hsplit : (11 : ℕ) = 1 + 10 := rfl
  rw [hsplit, CALC_scan_add lutS m 1 10 0 (0, -10, -10)]
  have hfirst : CALC_scan lutS m 1 0 (0, -10, -10) = (0, 0, -10) := by
    simp only [CALC_scan]
    rw [if_pos hm, if_neg ?hbr0]
    case hbr0 =>
      rintro ⟨habs, -⟩
      rw [hm] at habs
      exact lt_irrefl _ habs
    decide
  rw [hfirst]
  refine CALC_scan_id lutS m 10 (0 + 1) (0, 0, -10) ?_
  intro j hj1 hj10
  have hjlt : lutS j < m := hlt j (by omega) (by omega)
  refine ⟨fun habs => absurd habs.symm (ne_of_lt hjlt), ?_⟩
  rintro ⟨habs, -⟩
  exact lt_irrefl _ (lt_trans habs hjlt)

/-- C8: over any strictly decreasing strength table paired with a strictly
increasing distance table, a measurement strictly below the lowest strength
entry (the last one) makes `CALC_Distance` return the maximum table distance
(the last distance entry), and a measurement strictly above the highest
strength entry (the first one) makes it return the minimum table distance
(the first distance entry). -/
theorem C8_out_of_range_clamps (lutD lutS : ℕ → ℚ)
    (hdec : ∀ i, i < CALC_LUTSIZE - 1 → lutS (i+1) < lutS i)
    (hinc : ∀ i, i < CALC_LUTSIZE - 1 → lutD i < lutD (i+1))
    (m : ℚ) :
    (m < lutS (CALC_LUTSIZE - 1) → CALC_Distance lutD lutS m = lutD (CALC_LUTSIZE - 1)) ∧
    (lutS 0 < m → CALC_Distance lutD lutS m = lutD 0) := by
  have hL : CALC_LUTSIZE = 11 := rfl
  have hdec10 : ∀ i, i < 10 → lutS (i+1) < lutS i := by
    intro i hi
    exact hdec i (by omega)
  have hanti := lut_strict_anti lutS hdec10
  constructor
  · intro hm
    have hm10 : m < lutS 10 := by
      have h10 : CALC_LUTSIZE - 1 = 10 := rfl
      rwa [h10] at hm
    have hgt10 : ∀ i, i ≤ 10 → ¬ lutS i < lutS 10 := by
      intro i hi
      rcases Nat.lt_or_ge i 10 with h | h
      · exact not_lt_of_gt (hanti i 10 h (le_refl 10))
      · have hi10 : i = 10 := by omega
        subst hi10
        exact lt_irrefl _
    have hscan := CALC_scan_match_last lutS (lutS 10) rfl
        (fun i hi => hanti i 10 hi (le_refl 10)) hgt10
    have hclamp : (if lutS (CALC_LUTSIZE - 1) > m then lutS (CALC_LUTSIZE - 1)
        else if m > lutS 0 then lutS 0 else m) = lutS 10 := by
      rw [if_pos hm, hL]
    unfold CALC_Distance
    rw [hclamp, hL]
    simp only [hscan]
    norm_num
    rfl
  · intro hm0
    have h100 : lutS 10 < lutS 0 := hanti 0 10 (by omega) (le_refl 10)
    have hscan := CALC_scan_match_first lutS (lutS 0) rfl
        (fun i h1 h10 => hanti 0 i (by omega) h10)
    have hclamp : (if lutS (CALC_LUTSIZE - 1) > m then lutS (CALC_LUTSIZE - 1)
        else if m > lutS 0 then lutS 0 else m) = lutS 0 := by
      rw [if_neg ?hneg, if_pos hm0]
      case hneg =>
        show ¬ m < lutS (CALC_LUTSIZE - 1)
        have : lutS (CALC_LUTSIZE - 1) < m := lt_trans h100 hm0
        exact not_lt_of_gt this
    unfold CALC_Distance
    rw [hclamp, hL]
    simp only [hscan]
    norm_num

/-- Witness for C8 on the actual mode-L right calibration table: 300 is below
the lowest strength 330 and clamps to the 300 cm maximum distance; 900 is
above the highest strength 810 and clamps to the 0 cm minimum distance. -/
theorem C8_out_of_range_clamps_witness :
    CALC_Distance CALC_distanceLUT CALC_wpcRightL 300 = CALC_distanceLUT (CALC_LUTSIZE - 1) ∧
    CALC_Distance CALC_distanceLUT CALC_wpcRightL 900 = CALC_distanceLUT 0 :=
  ⟨(C8_out_of_range_clamps CALC_distanceLUT CALC_wpcRightL
      (by decide) (by decide) 300).1 (by decide),
   (C8_out_of_range_clamps CALC_distanceLUT CALC_wpcRightL
      (by decide) (by decide) 900).2 (by decide)⟩

/-- On a length-11 table whose last strength entry is at most the (clamped)
measurement, the instrumented scan performs no out-of-bounds read: the
short-circuited bracketing test at index 10 has a false first operand, so
`lutStrenght[11]` is never read, and the resulting `(t, s, d)` satisfies
`0 ≤ t ≤ 10` and `d ≤ 9`. -/
theorem scanChecked_isSome (lutS : List ℚ) (m : ℚ) (hlen : lutS.length = 11)
    (hm : lutS.getD 10 0 ≤ m) :
    ∀ k i st, i + k = 11 → 0 ≤ st.1 → st.1 ≤ 10 → st.2.2 ≤ 9 →
      ∃ t s d, scanChecked lutS m k i st = some (t, s, d) ∧
        0 ≤ t ∧ t ≤ 10 ∧ d ≤ 9 := by
  intro k
  induction k with
  | zero =>
      intro i st _ h1 h2 h3
      exact ⟨st.1, st.2.1, st.2.2, by simp [scanChecked], h1, h2, h3⟩
  | succ k ih =>
      intro i st hik h1 h2 h3
      have hi : i < lutS.length := by omega
      have hgi : lutS[i]? = some lutS[i] := List.getElem?_eq_getElem hi
      have hb1 : 0 ≤ (if m = lutS[i] then ((i:ℤ), (i:ℤ), st.2.2) else st).1 := by
        split_ifs with h
        · show (0:ℤ) ≤ (i:ℤ)
          omega
        · exact h1
      have hb2 : (if m = lutS[i] then ((i:ℤ), (i:ℤ), st.2.2) else st).1 ≤ 10 := by
        split_ifs with h
        · show (i:ℤ) ≤ 10
          omega
        · exact h2
      have hb3 : (if m = lutS[i] then ((i:ℤ), (i:ℤ), st.2.2) else st).2.2 ≤ 9 := by
        split_ifs <;> [exact h3; exact h3]
      simp only [scanChecked, hgi]
      by_cases hlt : m < lutS[i]
      · have hi10 : i < 10 := by
          by_contra hge
          have hieq : i = 10 := by omega
          subst hieq
          have : lutS.getD 10 0 = lutS[10] := List.getD_eq_getElem lutS 0 hi
          rw [this] at hm
          exact absurd hlt (not_lt_of_ge hm)
        have hi1 : i + 1 < lutS.length := by omega
        have hgi1 : lutS[i+1]? = some lutS[i+1] := List.getElem?_eq_getElem hi1
        rw [if_pos hlt]
        simp only [hgi1]
        by_cases hlt2 : lutS[i+1] < m
        · rw [if_pos hlt2]
          exact ih (i+1) ((i:ℤ), (if m = lutS[i] then ((i:ℤ), (i:ℤ), st.2.2) else st).2.1, (i:ℤ))
            (by omega) (by omega) (by omega) (by show (i:ℤ) ≤ 9; omega)
        · rw [if_neg hlt2]
          exact ih (i+1) _ (by omega) hb1 hb2 hb3
      · rw [if_neg hlt]
        exact ih (i+1) _ (by omega) hb1 hb2 hb3

/-- Amended C10: on tables of length `CALC_LUTSIZE` whose last strength entry
is at most the first (in particular every strictly decreasing calibration
table), evaluating `CALC_Distance` performs only in-bounds accesses: the
instrumented evaluation returns a value. -/
theorem C10_lookup_in_bounds (lutD lutS : List ℚ)
    (hD : lutD.length = CALC_LUTSIZE) (hS : lutS.length = CALC_LUTSIZE)
    (hle : lutS.getD (CALC_LUTSIZE - 1) 0 ≤ lutS.getD 0 0) (m : ℚ) :
    (CALC_DistanceChecked lutD lutS m).isSome = true := by
  have hS' : lutS.length = 11 := hS
  have hD' : lutD.length = 11 := hD
  have h10 : (10:ℕ) < lutS.length := by omega
  have h0 : (0:ℕ) < lutS.length := by omega
  have hgD10 : lutS.getD 10 0 = lutS[10] := List.getD_eq_getElem lutS 0 h10
  have hgD0 : lutS.getD 0 0 = lutS[0] := List.getD_eq_getElem lutS 0 h0
  have hle' : lutS[10] ≤ lutS[0] := by
    have h : lutS.getD (CALC_LUTSIZE - 1) 0 = lutS.getD 10 0 := rfl
    rw [h, hgD10, hgD0] at hle
    exact hle
  have hm' : lutS.getD 10 0 ≤
      (if lutS[10] > m then lutS[10] else if m > lutS[0] then lutS[0] else m) := by
    rw [hgD10]
    split_ifs with hc1 hc2
    · exact le_refl _
    · exact hle'
    · exact le_of_not_gt hc1
  obtain ⟨t, s, d, hscan, ht0, ht10, hd9⟩ :=
    scanChecked_isSome lutS _ hS' hm' 11 0 (0, -10, -10) (by omega)
      (by norm_num) (by norm_num) (by norm_num)
  simp only [CALC_DistanceChecked, CALC_LUTSIZE]
  rw [List.getElem?_eq_getElem h10, List.getElem?_eq_getElem h0]
  simp only [hscan]
  by_cases htd : t = d
  · have ht9 : t.toNat ≤ 9 := by omega
    have hb1 : t.toNat + 1 < lutD.length := by omega
    have hb2 : t.toNat < lutD.length := by omega
    have hb3 : t.toNat + 1 < lutS.length := by omega
    have hb4 : t.toNat < lutS.length := by omega
    rw [if_pos htd, List.getElem?_eq_getElem hb1, List.getElem?_eq_getElem hb2,
      List.getElem?_eq_getElem hb3, List.getElem?_eq_getElem hb4]
    split_ifs <;> simp [List.getElem?_eq_getElem hb2]
  · have hb2 : t.toNat < lutD.length := by omega
    rw [if_neg htd]
    split_ifs <;> simp [List.getElem?_eq_getElem hb2]

/-- Witness for the amended C10 at the real mode-L right strength table and a
measurement inside the table range. -/
theorem C10_lookup_in_bounds_witness :
    (CALC_DistanceChecked [0, 10, 20, 30, 40, 50, 70, 100, 150, 200, 300]
      [810, 690, 620, 565, 530, 510, 490, 450, 395, 380, 330] 500).isSome = true :=
  C10_lookup_in_bounds _ _ (by decide) (by decide) (by decide) 500

/-- Counterexample to C10 as stated: for an arbitrary (here strictly
increasing) strength table of size `CALC_LUTSIZE`, the clamping can leave the
measurement strictly below the last strength entry, and then the bracketing
test of the scan's final iteration reads `lutStrenght[CALC_LUTSIZE]` — one
past the end — so the instrumented evaluation aborts with `none`. -/
theorem C10_counterexample :
    ([0, 1, 2, 3, 4, 5, 6, 7, 8, 9, 10] : List ℚ).length = CALC_LUTSIZE ∧
    CALC_DistanceChecked [0, 10, 20, 30, 40, 50, 70, 100, 150, 200, 300]
      [0, 1, 2, 3, 4, 5, 6, 7, 8, 9, 10] 20 = none := by
  constructor
  · decide
  · decide

/-- C2: with accuracy 1 and single-shot repeat mode (`measType ≠ 1`), for any
calibration/result mode, any delivered amplitudes and any contents of the
uninitialised locals, the three polls start / WPC-ready / Hall-ready complete
exactly one run: the data-ready flag is set only after the third poll, after
which the sequencer is idle (all busy flags false) with cycle index 0. -/
theorem C2_single_cycle_run (optn : AnaOptn) (h1 : optn.accuracy = 1)
    (h2 : optn.measType ≠ 1) (j1 j2 j3 : Junk) (aL aR bL bR : ℕ) :
    (ANA_run1 optn j1).outDataReady = false ∧
    (ANA_run2 optn j1 j2 aL aR).outDataReady = false ∧
    (ANA_run3 optn j1 j2 j3 aL aR bL bR).outDataReady = true ∧
    (ANA_run3 optn j1 j2 j3 aL aR bL bR).measBusy = false ∧
    (ANA_run3 optn j1 j2 j3 aL aR bL bR).wpcBusy = false ∧
    (ANA_run3 optn j1 j2 j3 aL aR bL bR).hallBusy = false ∧
    (ANA_run3 optn j1 j2 j3 aL aR bL bR).cycle = 0 := by
  obtain ⟨mo, dt, mt, a⟩ := optn
  have ha : a = 1 := h1
  subst ha
  have h2b : (mt == 1) = false := by simpa using h2
  have m1 : (ANA_run1 ⟨mo, dt, mt, 1⟩ j1).measBusy = true := by
    simp [ANA_run1, ANA_Handler, ANA_seq, ANA_collect, ANA_init, inpStart]
  have w1 : (ANA_run1 ⟨mo, dt, mt, 1⟩ j1).wpcBusy = true := by
    simp [ANA_run1, ANA_Handler, ANA_seq, ANA_collect, ANA_init, inpStart]
  have b1 : (ANA_run1 ⟨mo, dt, mt, 1⟩ j1).hallBusy = false := by
    simp [ANA_run1, ANA_Handler, ANA_seq, ANA_collect, ANA_init, inpStart]
  have c1 : (ANA_run1 ⟨mo, dt, mt, 1⟩ j1).cycle = 0 := by
    simp [ANA_run1, ANA_Handler, ANA_seq, ANA_collect, ANA_init, inpStart]
  have d1 : (ANA_run1 ⟨mo, dt, mt, 1⟩ j1).outDataReady = false := by
    simp [ANA_run1, ANA_Handler, ANA_seq, ANA_collect, ANA_init, inpStart]
  have m2 : (ANA_run2 ⟨mo, dt, mt, 1⟩ j1 j2 aL aR).measBusy = true := by
    simp [ANA_run2, ANA_Handler, ANA_seq, ANA_collect, m1, w1, b1, c1, d1]
  have w2 : (ANA_run2 ⟨mo, dt, mt, 1⟩ j1 j2 aL aR).wpcBusy = false := by
    simp [ANA_run2, ANA_Handler, ANA_seq, ANA_collect, m1, w1, b1, c1, d1]
  have b2 : (ANA_run2 ⟨mo, dt, mt, 1⟩ j1 j2 aL aR).hallBusy = true := by
    simp [ANA_run2, ANA_Handler, ANA_seq, ANA_collect, m1, w1, b1, c1, d1]
  have c2 : (ANA_run2 ⟨mo, dt, mt, 1⟩ j1 j2 aL aR).cycle = 0 := by
    simp [ANA_run2, ANA_Handler, ANA_seq, ANA_collect, m1, w1, b1, c1, d1]
  have d2 : (ANA_run2 ⟨mo, dt, mt, 1⟩ j1 j2 aL aR).outDataReady = false := by
    simp [ANA_run2, ANA_Handler, ANA_seq, ANA_collect, m1, w1, b1, c1, d1]
  refine ⟨d1, d2, ?_, ?_, ?_, ?_, ?_⟩ <;>
    simp [ANA_run3, ANA_Handler, ANA_seq, ANA_collect, m2, w2, b2, c2, d2, h2b]

/-- Witness for C2 at the concrete configuration `optnA` with zeroed
uninitialised locals and zero amplitudes. -/
theorem C2_single_cycle_run_witness :
    (ANA_run1 optnA junk0).outDataReady = false ∧
    (ANA_run2 optnA junk0 junk0 0 0).outDataReady = false ∧
    (ANA_run3 optnA junk0 junk0 junk0 0 0 0 0).outDataReady = true ∧
    (ANA_run3 optnA junk0 junk0 junk0 0 0 0 0).measBusy = false ∧
    (ANA_run3 optnA junk0 junk0 junk0 0 0 0 0).wpcBusy = false ∧
    (ANA_run3 optnA junk0 junk0 junk0 0 0 0 0).hallBusy = false ∧
    (ANA_run3 optnA junk0 junk0 junk0 0 0 0 0).cycle = 0 :=
  C2_single_cycle_run optnA rfl (by decide) junk0 junk0 junk0 0 0 0 0

/-- Counterexample to C7 as stated: in continuous mode (accuracy 2), after one
completed cycle (`sE3` is mid-run with cycle index 1), the poll that receives
the cancelling button press clears the measurement-busy flag immediately, but
leaves the cycle index at 1 (not 0) and even leaves the WPC phase flag set —
the sequencer does not return to the idle state with a zeroed cycle index. -/
theorem C7_counterexample :
    optnE.measType = 1 ∧ sE3.measBusy = true ∧ sE3.cycle = 1 ∧
    sE4.measBusy = false ∧ sE4.cycle = 1 ∧ sE4.wpcBusy = true := by
  exact ⟨by decide, by decide, by decide, by decide, by decide, by decide⟩

/-- Amended C7: a button press while the measurement is running in continuous
mode clears the measurement-busy flag in that same poll (immediately, not at
the next cycle boundary); the cycle index is not reset by the cancellation — a
cancelling poll without a measurement-ready event leaves it unchanged
whenever it differs from the accuracy. -/
theorem C7_continuous_cancel (optn : AnaOptn) (junk : Junk) (inp : AnaIn) (s : AnaState)
    (hcont : optn.measType = 1) (hbusy : s.measBusy = true) (hbtn : inp.inBtn = true) :
    (ANA_Handler optn junk inp s).measBusy = false ∧
    (inp.inMeasReady = false → s.cycle ≠ optn.accuracy →
      (ANA_Handler optn junk inp s).cycle = s.cycle) := by
  constructor
  · simp [ANA_Handler, hcont, hbusy, hbtn]
  · intro hr hc
    have hcyc : (ANA_seq optn (if inp.inBtn && !s.measBusy then true else s.measBusy)
        inp.inMeasReady s).2.2.2.2 = s.cycle := by
      unfold ANA_seq
      rw [hr]
      split_ifs <;> simp_all
    simp only [ANA_Handler]
    rw [hcyc]
    simp [hc]

/-- Witness for the amended C7: cancelling from a busy state in continuous
mode clears the busy flag and keeps the cycle index. -/
theorem C7_continuous_cancel_witness :
    (ANA_Handler optnE junk0 inpStart { ANA_init with measBusy := true }).measBusy = false ∧
    (ANA_Handler optnE junk0 inpStart { ANA_init with measBusy := true }).cycle =
      ({ ANA_init with measBusy := true } : AnaState).cycle :=
  ⟨(C7_continuous_cancel optnE junk0 inpStart { ANA_init with measBusy := true }
      rfl rfl rfl).1,
   (C7_continuous_cancel optnE junk0 inpStart { ANA_init with measBusy := true }
      rfl rfl rfl).2 rfl (by decide)⟩

/-- Counterexample to C9 as stated: in the completed analysed-mode run `sA3`,
the WPC-left buffer entry 0 held the recorded raw amplitude 795 before the
completing poll and holds the converted distance 0 afterwards — the analysis
overwrites the WPC buffers in place. -/
theorem C9_counterexample :
    sA2.wpcLeft 0 = 795 ∧ sA3.wpcLeft 0 = 0 ∧ sA3.wpcLeft 0 ≠ sA2.wpcLeft 0 := by
  exact ⟨by decide, by decide, by decide⟩

/-- Amended C9: the Hall buffers are never written by the analysis (after any
poll they hold exactly what the collection step recorded); the WPC buffers are
preserved in raw-passthrough mode, while in analysed mode entries below the
accuracy are replaced in place by their converted distances and entries above
it are untouched. -/
theorem C9_buffer_frame (optn : AnaOptn) (junk : Junk) (inp : AnaIn) (s : AnaState) :
    (ANA_Handler optn junk inp s).hallLeft = (ANA_collect inp s).hallLeft ∧
    (ANA_Handler optn junk inp s).hallRight = (ANA_collect inp s).hallRight ∧
    (optn.dataType ≠ 0 →
      (ANA_Handler optn junk inp s).wpcLeft = (ANA_collect inp s).wpcLeft ∧
      (ANA_Handler optn junk inp s).wpcRight = (ANA_collect inp s).wpcRight) ∧
    (∀ wl wr hl hr : ℕ → ℚ, optn.dataType = 0 →
      (∀ i, i < optn.accuracy →
        (ANA_analyse optn junk wl wr hl hr).2.1 i = CALC_DistanceMode (wl i) optn.mode false ∧
        (ANA_analyse optn junk wl wr hl hr).2.2 i = CALC_DistanceMode (wr i) optn.mode true) ∧
      (∀ i, optn.accuracy ≤ i →
        (ANA_analyse optn junk wl wr hl hr).2.1 i = wl i ∧
        (ANA_analyse optn junk wl wr hl hr).2.2 i = wr i)) := by
  refine ⟨rfl, rfl, ?_, ?_⟩
  · intro hd
    have hd0 : (optn.dataType == 0) = false := by simpa using hd
    constructor <;> simp [ANA_Handler, ANA_analyse, hd0]
  · intro wl wr hl hr hd
    have hd0 : (optn.dataType == 0) = true := by simpa using hd
    constructor
    · intro i hi
      constructor <;> simp [ANA_analyse, hd0, ANA_wpcConvL, ANA_wpcConvR, hi]
    · intro i hi
      have hni : ¬ i < optn.accuracy := by omega
      constructor <;> simp [ANA_analyse, hd0, ANA_wpcConvL, ANA_wpcConvR, hni]

/-- Witness for the amended C9 at a concrete poll and concrete buffers. -/
theorem C9_buffer_frame_witness :
    (ANA_Handler optnA junk0 inpStart ANA_init).hallLeft =
      (ANA_collect inpStart ANA_init).hallLeft ∧
    (ANA_analyse optnA junk0 (fun _ => 795) (fun _ => 690)
        (fun _ => 0) (fun _ => 0)).2.1 0 = CALC_DistanceMode 795 optnA.mode false ∧
    (ANA_analyse optnA junk0 (fun _ => 795) (fun _ => 690)
        (fun _ => 0) (fun _ => 0)).2.1 1 = 795 :=
  ⟨(C9_buffer_frame optnA junk0 inpStart ANA_init).1,
   (((C9_buffer_frame optnA junk0 inpStart ANA_init).2.2.2 (fun _ => 795) (fun _ => 690)
      (fun _ => 0) (fun _ => 0) rfl).1 0 (by decide)).1,
   (((C9_buffer_frame optnA junk0 inpStart ANA_init).2.2.2 (fun _ => 795) (fun _ => 690)
      (fun _ => 0) (fun _ => 0) rfl).2 1 (by decide)).1⟩

/-- Amended C6: the code has no zero-field guard.  In analysed mode the
reported current is 0 exactly when the mean is outside the open window
(0, 10) (the initialiser survives); when the mean is inside the window and the
computed Hall mean is zero, the code performs the division with a zero field
magnitude (undefined result, `none` in this model) instead of reporting 0. -/
theorem C6_current_guard (optn : AnaOptn) (junk : Junk) (wl wr hl hr : ℕ → ℚ)
    (hmode : optn.dataType = 0) :
    ((10 ≤ ANA_mean optn junk wl wr ∨ ANA_mean optn junk wl wr ≤ 0) →
      (ANA_analyse optn junk wl wr hl hr).1.res3 = some 0) ∧
    ((0 < ANA_mean optn junk wl wr ∧ ANA_mean optn junk wl wr < 10 ∧
        ANA_meanHall optn junk hl hr = 0) →
      (ANA_analyse optn junk wl wr hl hr).1.res3 = none) := by
  have hd : (optn.dataType == 0) = true := by simpa using hmode
  constructor
  · intro h
    have hcond : ¬(ANA_mean optn junk wl wr < 10 ∧ 0 < ANA_mean optn junk wl wr) := by
      rcases h with h | h
      · exact fun hc => absurd hc.1 (not_lt_of_ge h)
      · exact fun hc => absurd hc.2 (not_lt_of_ge h)
    simp [ANA_analyse, hd, ANA_current, hcond]
  · rintro ⟨h0, h10, hB⟩
    have hcond : ANA_mean optn junk wl wr < 10 ∧ 0 < ANA_mean optn junk wl wr := ⟨h10, h0⟩
    simp [ANA_analyse, hd, ANA_current, hcond, CALC_ElCurrent, hB]

/-- Evaluation fact used by the C6 witness: a run whose four converted
distances are all 300 cm has mean 300, outside the current window. -/
theorem C6_current_guard_aux1 :
    10 ≤ ANA_mean optnA junk0 (fun _ => 300) (fun _ => 300) ∨
      ANA_mean optnA junk0 (fun _ => 300) (fun _ => 300) ≤ 0 := by
  left
  norm_num [ANA_mean, ANA_sumLeft, ANA_sumRight, ANA_wpcConvL, ANA_wpcConvR, optnA, junk0,
    CALC_DistanceMode, CALC_Distance, CALC_scan, CALC_LUTSIZE, CALC_wpcLeft, CALC_wpcRight,
    CALC_wpcLeftL, CALC_wpcRightL, CALC_distanceLUT, List.range_succ]
  all_goals decide

/-- Evaluation fact used by the C6 witness: the `sA2` run has mean distance 5
and zero Hall mean. -/
theorem C6_current_guard_aux2 :
    0 < ANA_mean optnA junk0 sA2.wpcLeft sA2.wpcRight ∧
    ANA_mean optnA junk0 sA2.wpcLeft sA2.wpcRight < 10 ∧
    ANA_meanHall optnA junk0 sA2.hallLeft sA2.hallRight = 0 := by
  refine ⟨?_, ?_, ?_⟩ <;>
    norm_num [ANA_mean, ANA_meanHall, ANA_sumLeft, ANA_sumRight, ANA_wpcConvL, ANA_wpcConvR,
      optnA, junk0, sA2, sA1, ANA_Handler, ANA_collect, ANA_seq, ANA_init, inpStart,
      CALC_DistanceMode, CALC_Distance, CALC_scan, CALC_LUTSIZE, CALC_wpcLeft, CALC_wpcRight,
      CALC_wpcLeftL, CALC_wpcRightL, CALC_distanceLUT, List.range_succ, Function.update]

set_option maxHeartbeats 2000000 in
/-- Counterexample to C6 as stated: in the completed analysed run `sA3` the
mean distance is 5 (inside the 0..10 window) and every buffered Hall amplitude
(and the uninitialised sum's start value) is zero, so the computed field
magnitude is zero — yet the engine does not skip the computation and report 0:
it reaches the division by zero (`res3 = none` in this model, a non-finite
float on the target). -/
theorem C6_counterexample :
    (0:ℚ) < ANA_mean optnA junk0 sA2.wpcLeft sA2.wpcRight ∧
    ANA_mean optnA junk0 sA2.wpcLeft sA2.wpcRight < 10 ∧
    ANA_meanHall optnA junk0 sA2.hallLeft sA2.hallRight = 0 ∧
    sA3.outResults.res3 = none ∧ sA3.outResults.res3 ≠ some 0 := by
  obtain ⟨h1, h2, h3⟩ := C6_current_guard_aux2
  have h4 : sA3.outResults.res3 = none := by
    norm_num [ANA_mean, ANA_meanHall, ANA_sumLeft, ANA_sumRight, ANA_wpcConvL, ANA_wpcConvR,
      ANA_current, ANA_angle, ANA_meanLeft, ANA_meanRight, ANA_var, ANA_dev, devLoop,
      ANA_analyse, optnA, junk0, sA3, sA2, sA1, ANA_Handler, ANA_collect, ANA_seq, ANA_init,
      inpStart, CALC_DistanceMode, CALC_Distance, CALC_scan, CALC_Angle, CALC_ElCurrent,
      CALC_ADCVOLTRESOLUTION, CALC_AMPOPAMP, CALC_AMPHALLSENS, CALC_PIDANDPERM, CALC_LUTSIZE,
      CALC_wpcLeft, CALC_wpcRight, CALC_wpcLeftL, CALC_wpcRightL, CALC_distanceLUT,
      List.range_succ, Function.update]
  refine ⟨h1, h2, h3, h4, ?_⟩
  rw [h4]
  simp

/-- Witness for the amended C6: a run with mean 300 reports current 0; the
`sA2` run (mean 5, zero Hall readings) reaches the division by zero. -/
theorem C6_current_guard_witness :
    (ANA_analyse optnA junk0 (fun _ => 300) (fun _ => 300)
      (fun _ => 0) (fun _ => 0)).1.res3 = some 0 ∧
    (ANA_analyse optnA junk0 sA2.wpcLeft sA2.wpcRight
      sA2.hallLeft sA2.hallRight).1.res3 = none :=
  ⟨(C6_current_guard optnA junk0 (fun _ => 300) (fun _ => 300)
      (fun _ => 0) (fun _ => 0) rfl).1 C6_current_guard_aux1,
   (C6_current_guard optnA junk0 sA2.wpcLeft sA2.wpcRight
      sA2.hallLeft sA2.hallRight rfl).2 C6_current_guard_aux2⟩

set_option maxHeartbeats 2000000 in
/-- C3 evaluation at the failing input: the run `sB3` (accuracy 1, mode L, raw
WPC readings 795/690 converting to distances 0 cm and 10 cm) with the
uninitialised `sumLeft` starting at 1 reports the distance 11/2, whereas the
mean computed from sums that start at zero — what the claim states — is 5.
The C locals `sumLeft`/`sumRight` are never initialised, so the reported mean
is offset by whatever the stack held. -/
theorem C3_uninitialised_sum_mean :
    sB3.outResults.res1 = 11/2 ∧
    (CALC_DistanceMode 795 0 false + CALC_DistanceMode 690 0 true) / (2*1) = 5 ∧
    sB3.outResults.res1 ≠
      (CALC_DistanceMode 795 0 false + CALC_DistanceMode 690 0 true) / (2*1) := by
  have e1 : sB3.outResults.res1 = 11/2 := by
    norm_num [ANA_mean, ANA_sumLeft, ANA_sumRight, ANA_wpcConvL, ANA_wpcConvR,
      ANA_current, ANA_angle, ANA_meanLeft, ANA_meanRight, ANA_var, ANA_dev, devLoop,
      ANA_meanHall, ANA_analyse, optnA, junk0, junkB, sB3, sA2, sA1, ANA_Handler,
      ANA_collect, ANA_seq, ANA_init, inpStart, CALC_DistanceMode, CALC_Distance,
      CALC_scan, CALC_Angle, CALC_ElCurrent, CALC_ADCVOLTRESOLUTION, CALC_AMPOPAMP,
      CALC_AMPHALLSENS, CALC_PIDANDPERM, CALC_LUTSIZE, CALC_wpcLeft, CALC_wpcRight,
      CALC_wpcLeftL, CALC_wpcRightL, CALC_distanceLUT, List.range_succ, Function.update]
  have e2 : (CALC_DistanceMode 795 0 false + CALC_DistanceMode 690 0 true) / (2*1) = 5 := by
    norm_num [CALC_DistanceMode, CALC_Distance, CALC_scan, CALC_LUTSIZE, CALC_wpcLeft,
      CALC_wpcRight, CALC_wpcLeftL, CALC_wpcRightL, CALC_distanceLUT]
  refine ⟨e1, e2, ?_⟩
  rw [e1, e2]
  norm_num

set_option maxHeartbeats 2000000 in
/-- C5 evaluation at the failing input: in the run `sA3` the normalized left
mean distance is 0/5, far below the 0.8 threshold, so the claim requires the
angle −30 ("rotated left"); the code reports +30, because `ANA_Handler` passes
`(meanRight, meanLeft, mean)` into `CALC_Angle(left, right, middle)`, swapping
the sides relative to the callee's documented parameters. -/
theorem C5_angle_sides_swapped :
    ANA_meanLeft optnA junk0 sA2.wpcLeft / ANA_mean optnA junk0 sA2.wpcLeft sA2.wpcRight
      < 1 - 2/10 ∧
    sA3.outResults.res0 = 30 ∧ (30:ℚ) ≠ -30 := by
  refine ⟨?_, ?_, by norm_num⟩ <;>
    norm_num [ANA_mean, ANA_meanHall, ANA_sumLeft, ANA_sumRight, ANA_wpcConvL, ANA_wpcConvR,
      ANA_current, ANA_angle, ANA_meanLeft, ANA_meanRight, ANA_var, ANA_dev, devLoop,
      ANA_analyse, optnA, junk0, sA3, sA2, sA1, ANA_Handler, ANA_collect, ANA_seq, ANA_init,
      inpStart, CALC_DistanceMode, CALC_Distance, CALC_scan, CALC_Angle, CALC_ElCurrent,
      CALC_ADCVOLTRESOLUTION, CALC_AMPOPAMP, CALC_AMPHALLSENS, CALC_PIDANDPERM, CALC_LUTSIZE,
      CALC_wpcLeft, CALC_wpcRight, CALC_wpcLeftL, CALC_wpcRightL, CALC_distanceLUT,
      List.range_succ, Function.update]

set_option maxHeartbeats 4000000 in
/-- C4 evaluation at the failing input: the accuracy-2 run `sD6` has converted
distances 0, 10 (left) and 0, 0 (right), hence mean 5/2 and population
variance 75/4 around it; the code instead accumulates `deviation[1]` — the
literal index 1 — on every iteration, yielding 225/4 before the square root,
so the reported standard deviation is 15/2 and not the claimed
`sqrt (75/4)`. -/
theorem C4_stddev_uses_deviation_one :
    ANA_mean optnD junk0 sD5.wpcLeft sD5.wpcRight = 5/2 ∧
    sD6.outResults.res2 = 225/4 ∧
    ((CALC_DistanceMode 795 0 false - 5/2)^2 + (CALC_DistanceMode 740 0 false - 5/2)^2 +
      (CALC_DistanceMode 810 0 true - 5/2)^2 + (CALC_DistanceMode 810 0 true - 5/2)^2)
      / (2*2) = 75/4 ∧
    ANA_reportedStdDev sD6 = 15/2 ∧
    Real.sqrt ((75/4 : ℚ) : ℝ) ≠ ANA_reportedStdDev sD6 := by
  have hwl0 : sD5.wpcLeft 0 = 795 := by decide
  have hwl1 : sD5.wpcLeft 1 = 740 := by decide
  have hwr0 : sD5.wpcRight 0 = 810 := by decide
  have hwr1 : sD5.wpcRight 1 = 810 := by decide
  have hhl0 : sD5.hallLeft 0 = 0 := by decide
  have hhr0 : sD5.hallRight 0 = 0 := by decide
  have hm5 : sD5.measBusy = true := by decide
  have hw5 : sD5.wpcBusy = false := by decide
  have hh5 : sD5.hallBusy = true := by decide
  have hc5 : sD5.cycle = 1 := by decide
  have e1 : ANA_mean optnD junk0 sD5.wpcLeft sD5.wpcRight = 5/2 := by
    norm_num [ANA_mean, ANA_sumLeft, ANA_sumRight, ANA_wpcConvL, ANA_wpcConvR, optnD, junk0,
      hwl0, hwl1, hwr0, hwr1, CALC_DistanceMode, CALC_Distance, CALC_scan, CALC_LUTSIZE,
      CALC_wpcLeft, CALC_wpcRight, CALC_wpcLeftL, CALC_wpcRightL, CALC_distanceLUT,
      List.range_succ]
  have e2 : sD6.outResults.res2 = 225/4 := by
    norm_num [sD6, ANA_Handler, ANA_seq, ANA_collect, ANA_analyse, hm5, hw5, hh5, hc5,
      hwl0, hwl1, hwr0, hwr1, hhl0, hhr0, optnD, junk0, ANA_var, ANA_dev, devLoop,
      ANA_mean, ANA_meanHall, ANA_current, ANA_angle, ANA_meanLeft, ANA_meanRight,
      ANA_sumLeft, ANA_sumRight, ANA_wpcConvL, ANA_wpcConvR, CALC_DistanceMode,
      CALC_Distance, CALC_scan, CALC_Angle, CALC_ElCurrent, CALC_ADCVOLTRESOLUTION,
      CALC_AMPOPAMP, CALC_AMPHALLSENS, CALC_PIDANDPERM, CALC_LUTSIZE, CALC_wpcLeft,
      CALC_wpcRight, CALC_wpcLeftL, CALC_wpcRightL, CALC_distanceLUT, List.range_succ,
      Function.update]
  have e3 : ((CALC_DistanceMode 795 0 false - 5/2)^2 + (CALC_DistanceMode 740 0 false - 5/2)^2 +
      (CALC_DistanceMode 810 0 true - 5/2)^2 + (CALC_DistanceMode 810 0 true - 5/2)^2)
      / (2*2) = (75/4 : ℚ) := by
    norm_num [CALC_DistanceMode, CALC_Distance, CALC_scan, CALC_LUTSIZE, CALC_wpcLeft,
      CALC_wpcRight, CALC_wpcLeftL, CALC_wpcRightL, CALC_distanceLUT]
  have e4 : ANA_reportedStdDev sD6 = 15/2 := by
    have hc : ((sD6.outResults.res2 : ℚ) : ℝ) = (15/2 : ℝ)^2 := by
      rw [e2]
      norm_num
    unfold ANA_reportedStdDev
    rw [hc]
    exact Real.sqrt_sq (by norm_num)
  have e5 : Real.sqrt ((75/4 : ℚ) : ℝ) ≠ ANA_reportedStdDev sD6 := by
    rw [e4]
    intro habs
    have h75 : ((75/4 : ℚ) : ℝ) = ((15:ℝ)/2)^2 := by
      rw [← habs, Real.sq_sqrt]
      norm_num
    norm_num at h75
  exact ⟨e1, e2, e3, e4, e5⟩
